import Mathlib

/-!
Shallow embedding of the RTP-to-MP4 recording pipeline of this repository
(packages `playback` and `recorder`), together with theorems settling the
frozen claims about it.

Machine integers are modelled as `Int`/`Nat` with explicit reduction
modulo `2^32` where the Go code converts to `uint32`/`int32`.
Byte slices are modelled as `List Nat` (each entry a byte value).
-/

/-- Go `int32(x)` conversion of an `int64` value: two's-complement
truncation to 32 bits. -/
def int32ofInt (x : Int) : Int :=
  (x + 2147483648) % 4294967296 - 2147483648

/-- Go `uint32(x)` conversion of an `int64` value: reduction modulo `2^32`. -/
def uint32ofInt (x : Int) : Nat :=
  (x % 4294967296).toNat

/-- Go `if diff < 0 { diff = 0 }` (`playback/writer.go`). -/
def clampNonNeg (x : Int) : Int :=
  if x < 0 then 0 else x

deriving instance DecidableEq for Except

/-- An RTP packet, restricted to the header fields the recorder code reads
(`pion/rtp.Packet`). -/
structure RTPPacket where
  payloadType : Nat
  sequenceNumber : Nat
  timestamp : Nat
  marker : Bool
  payload : List Nat
deriving DecidableEq, Repr

/-- Codec descriptor stored in an fMP4 init track (`fmp4.Codec`).
The `...Default` constructors stand for the library codecs built from the
`formatprocessor` default parameter byte strings, whose contents the
claims never inspect. -/
inductive Codec
  | h264 (sps pps : List Nat)
  | h264Default
  | h265Default
  | mpeg4VideoDefault
  | mpeg1Video
  | mjpeg
  | mpeg1Audio
  | mpeg4Audio
  | ac3
  | lpcm
deriving DecidableEq, Repr

/-- A sample stored by the muxer (`pmp4.Sample`).  The Go `GetPayload`
closure is modelled by the byte list it would return. -/
structure Sample where
  duration : Nat
  ptsOffset : Int
  isNonSyncSample : Bool
  payloadSize : Nat
  payload : List Nat
deriving DecidableEq, Repr

/-- A muxer track (`playback.MuxerMP4Track`, embedding `pmp4.Track`). -/
structure MuxerMP4Track where
  id : Int
  timeScale : Nat
  codec : Codec
  timeOffset : Int
  samples : List Sample
  lastDTS : Int
deriving DecidableEq, Repr

/-- Go `w.CurTrack.Samples[len(w.CurTrack.Samples)-1].Duration = uint32(diff)`:
overwrite the duration of the last sample of the list. -/
def setLastDuration : List Sample → Nat → List Sample
  | [], _ => []
  | [s], d => [{ s with duration := d }]
  | s :: s2 :: rest, d => s :: setLastDuration (s2 :: rest) d

/-- `playback.MuxerMP4.WriteSample`, acting on the current track
(the only state it reads or writes).  Field-for-field translation of
`writer.go` lines 251-287. -/
def writeSampleT (tr : MuxerMP4Track) (dts : Int) (ptsOffset : Int)
    (isNonSyncSample : Bool) (payloadSize : Nat) (payload : List Nat) :
    MuxerMP4Track :=
  let tr1 :=
    if (dts < 0 ∨ (0 ≤ dts ∧ tr.lastDTS < 0)) ∧ isNonSyncSample = false then
      { tr with samples := [] }
    else tr
  let tr2 :=
    if tr1.samples = [] then
      { tr1 with timeOffset := int32ofInt dts }
    else
      { tr1 with samples :=
          setLastDuration tr1.samples (uint32ofInt (clampNonNeg (dts - tr1.lastDTS))) }
  let po := if isNonSyncSample = false then 0 else ptsOffset
  { tr2 with
    samples := tr2.samples ++
      [{ duration := 0, ptsOffset := po, isNonSyncSample := isNonSyncSample,
         payloadSize := payloadSize, payload := payload }],
    lastDTS := dts }

/-- `playback.MuxerMP4.WriteSample` as the Go function returns it: the body
has a single `return nil`, so the result is always `ok`. -/
def writeSample (tr : MuxerMP4Track) (dts : Int) (ptsOffset : Int)
    (isNonSyncSample : Bool) (payloadSize : Nat) (payload : List Nat) :
    Except Unit MuxerMP4Track :=
  Except.ok (writeSampleT tr dts ptsOffset isNonSyncSample payloadSize payload)

/-- `playback.MuxerMP4.WriteFinalDTS` (writer.go lines 289-295).  `LastDTS`
is not updated by the Go code. -/
def writeFinalDTS (tr : MuxerMP4Track) (dts : Int) : MuxerMP4Track :=
  { tr with samples :=
      setLastDuration tr.samples (uint32ofInt (clampNonNeg (dts - tr.lastDTS))) }

/-- `playback.findTrackMP4`. -/
def findTrackMP4 (tracks : List MuxerMP4Track) (id : Int) : Option MuxerMP4Track :=
  tracks.find? (fun t => t.id = id)

/-- Functional update of the first track with the given id (Go mutates the
track object found by `findTrackMP4` in place). -/
def replaceTrackMP4 : List MuxerMP4Track → Int → MuxerMP4Track → List MuxerMP4Track
  | [], _, _ => []
  | t :: ts, id, t2 => if t.id = id then t2 :: ts else t :: replaceTrackMP4 ts id t2

/-- One track of an `fmp4.Init` (`fmp4.InitTrack`), restricted to the fields
`playback.MuxerMP4.WriteInit` copies. -/
structure InitTrack where
  id : Int
  timeScale : Nat
  codec : Codec
deriving DecidableEq, Repr

/-- `playback.MuxerMP4` (minus the output writer).  `curTrack` holds the id
of the track the Go `CurTrack` pointer designates; in every source flow
`SetTrack` is called right after `WriteInit`, so the id always refers into
`tracks`. -/
structure MuxerMP4 where
  tracks : List MuxerMP4Track
  curTrack : Option Int
deriving DecidableEq, Repr

/-- `playback.MuxerMP4.WriteInit`: rebuild the track list with empty sample
lists and zero time offsets / last DTS (Go zero values). -/
def MuxerMP4.writeInit (m : MuxerMP4) (tracks : List InitTrack) : MuxerMP4 :=
  { m with tracks := tracks.map fun t =>
      { id := t.id, timeScale := t.timeScale, codec := t.codec,
        timeOffset := 0, samples := [], lastDTS := 0 } }

/-- `playback.MuxerMP4.SetTrack`: `CurTrack = findTrackMP4(w.Tracks, trackID)`. -/
def MuxerMP4.setTrack (m : MuxerMP4) (id : Int) : MuxerMP4 :=
  { m with curTrack := (findTrackMP4 m.tracks id).map (fun t => t.id) }

/-- `playback.MuxerMP4.WriteSample` at the muxer level: act on the current
track through the `CurTrack` pointer.  The `error` branches model the Go
nil-pointer panic when no current track is set; they are unreachable in
the source flows, which always call `SetTrack` first. -/
def MuxerMP4.writeSample (m : MuxerMP4) (dts : Int) (ptsOffset : Int)
    (isNonSyncSample : Bool) (payloadSize : Nat) (payload : List Nat) :
    Except Unit MuxerMP4 :=
  match m.curTrack with
  | none => Except.error ()
  | some id =>
    match findTrackMP4 m.tracks id with
    | none => Except.error ()
    | some tr =>
      let tr2 := writeSampleT tr dts ptsOffset isNonSyncSample payloadSize payload
      Except.ok { m with tracks := replaceTrackMP4 m.tracks id tr2 }

/-- `recorder.getClockRate` (mp4_writer.go lines 186-251). -/
def getClockRate (payloadType : Nat) : Nat :=
  if payloadType = 105 ∨ payloadType = 106 ∨ payloadType = 119 then 48000
  else if payloadType = 118 then 44100
  else if 107 ≤ payloadType ∧ payloadType ≤ 117 then 8000
  else if payloadType = 120 ∨ (122 ≤ payloadType ∧ payloadType ≤ 125) then 8000
  else 90000

/-- `recorder.getCodecForPayloadType` (mp4_writer.go lines 254-340). -/
def getCodecForPayloadType (payloadType : Nat) : Codec :=
  if payloadType = 97 then Codec.h265Default
  else if payloadType = 100 then Codec.mpeg4VideoDefault
  else if payloadType = 101 then Codec.mpeg1Video
  else if payloadType = 102 then Codec.mjpeg
  else if payloadType = 103 ∨ payloadType = 104 ∨ payloadType = 121 then Codec.mpeg1Audio
  else if payloadType = 105 then Codec.mpeg4Audio
  else if payloadType = 106 then Codec.ac3
  else if (107 ≤ payloadType ∧ payloadType ≤ 120) ∨
          (122 ≤ payloadType ∧ payloadType ≤ 125) then Codec.lpcm
  else Codec.h264Default

/-- Result of one `Decode` call of an RTP depacketizer
(`rtph264.Decoder.Decode` / `rtph265.Decoder.Decode`). -/
inductive DecodeResult
  | ok (nalus : List (List Nat))
  | morePacketsNeeded
  | nonStartingPacketAndNoPrevious
  | otherError
deriving DecidableEq, Repr

/-- Modelled from the spec: the H.264 RTP depacketizer (`rtph264.Decoder`,
an external collaborator of this repository) applied to one packet on a
FRESHLY INITIALIZED decoder, which is how `recorder/mp4_writer.go` line 76
invokes it.  Spec section 4.1: single-NAL packets (types 1-23) yield the
payload as one NAL unit; an FU-A fragment (type 28) with the start bit set
and the end bit clear defers with `MorePacketsNeeded`; an FU-A fragment
without the start bit finds no previous fragment in a fresh decoder and
reports `NonStartingPacketAndNoPrevious`.  Aggregation packets (STAP-A)
and malformed payloads are outside the scope of the claims and are mapped
to `otherError`. -/
def decodeH264Fresh (payload : List Nat) : DecodeResult :=
  match payload with
  | [] => DecodeResult.otherError
  | b :: rest =>
    let typ := b % 32
    if 1 ≤ typ ∧ typ ≤ 23 then DecodeResult.ok [b :: rest]
    else if typ = 28 then
      match rest with
      | [] => DecodeResult.otherError
      | fuHeader :: _ =>
        let s := fuHeader / 128 % 2
        let e := fuHeader / 64 % 2
        if s = 1 then
          if e = 1 then DecodeResult.otherError
          else DecodeResult.morePacketsNeeded
        else DecodeResult.nonStartingPacketAndNoPrevious
    else DecodeResult.otherError

/-- Modelled from the spec: the H.265 RTP depacketizer (`rtph265.Decoder`,
external collaborator) applied to one packet on a freshly initialized
decoder (`recorder/mp4_writer.go` line 116).  Spec section 4.1, H.265 mode:
the NAL type is bits 1-6 of the first header byte; fragmentation units
(type 49) carry an FU header byte after the two-byte NAL header, with the
same start/end semantics as FU-A.  Aggregation packets (type 48) and
malformed payloads are mapped to `otherError`. -/
def decodeH265Fresh (payload : List Nat) : DecodeResult :=
  match payload with
  | [] => DecodeResult.otherError
  | b :: rest =>
    let typ := b / 2 % 64
    if typ = 49 then
      match rest with
      | _ :: fuHeader :: _ =>
        let s := fuHeader / 128 % 2
        let e := fuHeader / 64 % 2
        if s = 1 then
          if e = 1 then DecodeResult.otherError
          else DecodeResult.morePacketsNeeded
        else DecodeResult.nonStartingPacketAndNoPrevious
      | _ => DecodeResult.otherError
    else if typ = 48 then DecodeResult.otherError
    else DecodeResult.ok [b :: rest]

/-- Modelled from the spec: `h264.IsRandomAccess` (external collaborator):
an access unit is a random-access point when it contains an IDR NAL unit
(type 5).  Glossary: "Random-access sample / sync sample ... e.g., IDR in
H.264". -/
def h264IsRandomAccess (nalus : List (List Nat)) : Bool :=
  nalus.any fun n => n.headD 0 % 32 = 5

/-- Modelled from the spec: `h265.IsRandomAccess` (external collaborator):
an access unit is a random-access point when it contains an IDR or CRA
NAL unit (types 19-21). -/
def h265IsRandomAccess (nalus : List (List Nat)) : Bool :=
  nalus.any fun n => 19 ≤ n.headD 0 / 2 % 64 ∧ n.headD 0 / 2 % 64 ≤ 21

/-- `recorder.MP4Writer` (mp4_writer.go): the muxer plus the persistent
DTS-extractor fields.  The DTS extractors (`h264.DTSExtractor` /
`h265.DTSExtractor`, external collaborators specified in spec section 4.4)
are kept abstract: `E` is their state type and an `extract` function is
passed to the step function. -/
structure MP4WriterState (E : Type) where
  muxer : MuxerMP4
  h264Ext : Option E
  h265Ext : Option E
deriving DecidableEq, Repr

/-- The PTS `recorder/mp4_writer.go` line 70 computes:
`pts := int64(pkt.Timestamp)`. -/
def mp4WriterPTS (pkt : RTPPacket) : Int :=
  Int.ofNat pkt.timestamp

/-- Tail of the H.264 branch of `MP4Writer.WriteRTPPacket` after the
decoder and the extractor-initialization guard: extract the DTS, then
write the sample (mp4_writer.go lines 104-169).  On an extractor error the
Go code returns the error; the extractor field keeps the state `e` that
was in the struct (assigned at initialization time). -/
def mp4WriterH264Tail {E : Type}
    (extract : E → List (List Nat) → Int → Except Unit (Int × E))
    (st : MP4WriterState E) (e : E) (nalus : List (List Nat)) (pts : Int)
    (payload : List Nat) : MP4WriterState E × Except Unit Unit :=
  let isNonSync := !h264IsRandomAccess nalus
  match extract e nalus pts with
  | Except.error _ => ({ st with h264Ext := some e }, Except.error ())
  | Except.ok (dts, e2) =>
    let st1 := { st with h264Ext := some e2 }
    match st1.muxer.writeSample dts (int32ofInt (pts - dts)) isNonSync
        (payload.length % 4294967296) payload with
    | Except.error _ => (st1, Except.error ())
    | Except.ok m2 => ({ st1 with muxer := m2 }, Except.ok ())

/-- Tail of the H.265 branch of `MP4Writer.WriteRTPPacket`
(mp4_writer.go lines 144-169), analogous to the H.264 one. -/
def mp4WriterH265Tail {E : Type}
    (extract : E → List (List Nat) → Int → Except Unit (Int × E))
    (st : MP4WriterState E) (e : E) (nalus : List (List Nat)) (pts : Int)
    (payload : List Nat) : MP4WriterState E × Except Unit Unit :=
  let isNonSync := !h265IsRandomAccess nalus
  match extract e nalus pts with
  | Except.error _ => ({ st with h265Ext := some e }, Except.error ())
  | Except.ok (dts, e2) =>
    let st1 := { st with h265Ext := some e2 }
    match st1.muxer.writeSample dts (int32ofInt (pts - dts)) isNonSync
        (payload.length % 4294967296) payload with
    | Except.error _ => (st1, Except.error ())
    | Except.ok m2 => ({ st1 with muxer := m2 }, Except.ok ())

/-- `recorder.MP4Writer.WriteRTPPacket` (mp4_writer.go lines 42-170).
`extract` is the (abstract) DTS extractor `Extract` method and `initE` the
state of a freshly initialized extractor.  The result is the new writer
state and the Go return value (`ok ()` for `nil`). -/
def mp4WriterStep {E : Type}
    (extract : E → List (List Nat) → Int → Except Unit (Int × E)) (initE : E)
    (st : MP4WriterState E) (pkt : RTPPacket) :
    MP4WriterState E × Except Unit Unit :=
  let trackID : Int := Int.ofNat pkt.payloadType
  let needInit :=
    match st.muxer.curTrack with
    | none => true
    | some id => id ≠ trackID
  let initTr : InitTrack :=
    { id := trackID, timeScale := getClockRate pkt.payloadType,
      codec := getCodecForPayloadType pkt.payloadType }
  let mux0 :=
    if needInit then (st.muxer.writeInit [initTr]).setTrack trackID
    else st.muxer
  let st0 : MP4WriterState E := { st with muxer := mux0 }
  let pts := mp4WriterPTS pkt
  if pkt.payloadType = 96 then
    match decodeH264Fresh pkt.payload with
    | DecodeResult.morePacketsNeeded => (st0, Except.ok ())
    | DecodeResult.nonStartingPacketAndNoPrevious => (st0, Except.ok ())
    | DecodeResult.otherError => (st0, Except.error ())
    | DecodeResult.ok nalus =>
      match st0.h264Ext with
      | none =>
        if h264IsRandomAccess nalus = false then (st0, Except.ok ())
        else mp4WriterH264Tail extract st0 initE nalus pts pkt.payload
      | some e => mp4WriterH264Tail extract st0 e nalus pts pkt.payload
  else if pkt.payloadType = 97 then
    match decodeH265Fresh pkt.payload with
    | DecodeResult.morePacketsNeeded => (st0, Except.ok ())
    | DecodeResult.nonStartingPacketAndNoPrevious => (st0, Except.ok ())
    | DecodeResult.otherError => (st0, Except.error ())
    | DecodeResult.ok nalus =>
      match st0.h265Ext with
      | none =>
        if h265IsRandomAccess nalus = false then (st0, Except.ok ())
        else mp4WriterH265Tail extract st0 initE nalus pts pkt.payload
      | some e => mp4WriterH265Tail extract st0 e nalus pts pkt.payload
  else
    match st0.muxer.writeSample pts 0 false (pkt.payload.length % 4294967296)
        pkt.payload with
    | Except.error _ => (st0, Except.error ())
    | Except.ok m2 => ({ st0 with muxer := m2 }, Except.ok ())

/-- Iterate `mp4WriterStep` over a packet list, collecting the per-call
return values. -/
def mp4WriterRun {E : Type}
    (extract : E → List (List Nat) → Int → Except Unit (Int × E)) (initE : E)
    (st : MP4WriterState E) :
    List RTPPacket → MP4WriterState E × List (Except Unit Unit)
  | [] => (st, [])
  | p :: ps =>
    let r := mp4WriterStep extract initE st p
    let rest := mp4WriterRun extract initE r.1 ps
    (rest.1, r.2 :: rest.2)

/-- `recorder.RTPRecorder` (rtp_recorder.go).  `mux` is `none` while
`r.muxer == nil`; once initialized it holds the single current track
(id 1, selected by `SetTrack(1)`) together with the DTS-extractor state. -/
structure RTPRecorderState (E : Type) where
  sps : Option (List Nat)
  pps : Option (List Nat)
  mux : Option (MuxerMP4Track × E)
deriving DecidableEq, Repr

/-- The muxer-and-extract part of `RTPRecorder.WriteRTPPacket`
(rtp_recorder.go lines 92-110): build `nalus := [pkt.Payload]`, extract
the DTS, then call `WriteSample(int64(pkt.Timestamp),
int32(int64(pkt.Timestamp)-dts), !h264.IsRandomAccess(nalus), ...)`.
The middle result is the `dts` argument passed to the muxer on this call
(`none` when no sample was written). -/
def rtpRecorderExtractWrite {E : Type}
    (extract : E → List (List Nat) → Int → Except Unit (Int × E))
    (st : RTPRecorderState E) (tr : MuxerMP4Track) (e : E) (pkt : RTPPacket) :
    RTPRecorderState E × Option Int × Except Unit Unit :=
  let nalus := [pkt.payload]
  match extract e nalus (Int.ofNat pkt.timestamp) with
  | Except.error _ => ({ st with mux := some (tr, e) }, none, Except.error ())
  | Except.ok (dts, e2) =>
    let tr2 := writeSampleT tr (Int.ofNat pkt.timestamp)
      (int32ofInt (Int.ofNat pkt.timestamp - dts)) (!h264IsRandomAccess nalus)
      (pkt.payload.length % 4294967296) pkt.payload
    ({ st with mux := some (tr2, e2) }, some (Int.ofNat pkt.timestamp),
      Except.ok ())

/-- `recorder.RTPRecorder.WriteRTPPacket` (rtp_recorder.go lines 43-110).
SPS/PPS packets are captured and the call returns; before both parameter
sets are seen every other packet is ignored; the first packet after both
initializes the muxer (track id 1, time scale 90000) and the DTS
extractor, then every packet is treated as a single-NALU access unit. -/
def rtpRecorderStep {E : Type} (initE : E)
    (extract : E → List (List Nat) → Int → Except Unit (Int × E))
    (st : RTPRecorderState E) (pkt : RTPPacket) :
    RTPRecorderState E × Option Int × Except Unit Unit :=
  let naluTyp :=
    match pkt.payload with
    | [] => none
    | b :: _ => some (b % 32)
  if naluTyp = some 7 then ({ st with sps := some pkt.payload }, none, Except.ok ())
  else if naluTyp = some 8 then ({ st with pps := some pkt.payload }, none, Except.ok ())
  else
    match st.mux with
    | some (tr, e) => rtpRecorderExtractWrite extract st tr e pkt
    | none =>
      match st.sps, st.pps with
      | some sps, some pps =>
        let tr : MuxerMP4Track :=
          { id := 1, timeScale := 90000, codec := Codec.h264 sps pps,
            timeOffset := 0, samples := [], lastDTS := 0 }
        rtpRecorderExtractWrite extract st tr initE pkt
      | _, _ => (st, none, Except.ok ())

/-- Iterate `rtpRecorderStep`, collecting the `dts` arguments passed to the
muxer in order. -/
def rtpRecorderRun {E : Type} (initE : E)
    (extract : E → List (List Nat) → Int → Except Unit (Int × E))
    (st : RTPRecorderState E) :
    List RTPPacket → RTPRecorderState E × List Int
  | [] => (st, [])
  | p :: ps =>
    let r := rtpRecorderStep initE extract st p
    let rest := rtpRecorderRun initE extract r.1 ps
    (rest.1, r.2.1.toList ++ rest.2)

set_option linter.unusedVariables false in
/-- `recorder.RTPToPTS` (webrtc_recorder.go lines 466-469):
`return int64(rtpTimestamp)` — the clock rate is ignored. -/
def RTPToPTS (rtpTimestamp : Nat) (clockRate : Nat) : Int :=
  Int.ofNat rtpTimestamp

/-- The body of the per-packet loop of
`WebRTCRecorder.RecordFromPeerConnection` (webrtc_recorder.go lines
280-333), as a function of the branch conditions the iteration observes:
`descSet` is `strm.Desc != nil`, `rtcpErr` the error result of
`rtcpReceiver.ProcessPacket`, `avail` the availability flag of
`rtcpReceiver.PacketNTP`, `firstRTPTime` the loop variable (0 = unset, as
in Go), and `reordered` the packet list returned by `reorderer.Process`
(the reorderer and the RTCP receiver are external collaborators).  The
result is the updated `firstRTPTime` and the packets passed to
`strm.WriteRTPPacket`, in order.  The floating-point PTS argument of
those calls is not modelled. -/
def webrtcLoopBody (descSet rtcpErr avail : Bool) (firstRTPTime : Nat)
    (reordered : List RTPPacket) (pkt : RTPPacket) : Nat × List RTPPacket :=
  if rtcpErr then (firstRTPTime, [])
  else
    let f := if firstRTPTime = 0 then pkt.timestamp else firstRTPTime
    if avail = false then
      (f, if descSet then [pkt] else [])
    else
      (f, if descSet then reordered.filter (fun p => !p.payload.isEmpty) else [])

/-- `conf.RecordFormat`. -/
inductive RecordFormat
  | fmp4
  | mp4
deriving DecidableEq, Repr

/-- The configuration fields `recorder.NewWebRTCRecorder` fills in
(webrtc_recorder.go lines 29-58).  Durations are in nanoseconds
(Go `time.Duration`). -/
structure WebRTCRecorderConfig where
  pathFormat : String
  format : RecordFormat
  partDuration : Int
  segmentDuration : Int
  restartPause : Int
deriving DecidableEq, Repr

/-- `recorder.NewWebRTCRecorder` (webrtc_recorder.go lines 47-58). -/
def NewWebRTCRecorder (filePath : String) : WebRTCRecorderConfig :=
  { pathFormat := filePath,
    format := RecordFormat.fmp4,
    partDuration := 24 * 3600 * 1000000000,
    segmentDuration := 10 * 1000000000,
    restartPause := 2 * 1000000000 }

/-- Modelled from the spec: a DTS extractor conforming to the contract of
spec section 4.4 on the traces it is used with in this file — its emitted
DTS values (0, 1, 2, ...) are strictly increasing, and on every call made
by the theorems below the emitted DTS is at most the presented PTS.
The `h264.DTSExtractor` itself is an external collaborator whose state is
abstract here; this instance stands in for its behaviour on a B-frame
stream, where presentation timestamps reorder while extracted DTS values
keep increasing. -/
def extractCounter (n : Nat) (_nalus : List (List Nat)) (_pts : Int) :
    Except Unit (Int × Nat) :=
  Except.ok (Int.ofNat n, n + 1)

/-- The state of a freshly constructed `recorder.MP4Writer`
(`NewMP4Writer`): empty muxer, no DTS extractors. -/
def mp4WriterInitialState : MP4WriterState Nat :=
  { muxer := { tracks := [], curTrack := none }, h264Ext := none, h265Ext := none }

/-- An H.264 FU-A fragment-start packet: indicator byte `124` has NAL type
28 (FU-A), FU header `133` has the start bit set and the end bit clear. -/
def fuaStartPacket : RTPPacket :=
  { payloadType := 96, sequenceNumber := 1, timestamp := 1000, marker := false,
    payload := [124, 133, 7, 8] }

/-- The matching H.264 FU-A fragment-end packet: FU header `69` has the
start bit clear and the end bit set. -/
def fuaEndPacket : RTPPacket :=
  { payloadType := 96, sequenceNumber := 2, timestamp := 1000, marker := true,
    payload := [124, 69, 9, 10] }

/-- An H.264 FU-A continuation packet (start bit clear, end bit clear). -/
def fuaContPacket : RTPPacket :=
  { payloadType := 96, sequenceNumber := 9, timestamp := 2000, marker := false,
    payload := [124, 5, 1] }

/-- The state of a freshly constructed `recorder.RTPRecorder`. -/
def rtpRecorderInitialState : RTPRecorderState Nat :=
  { sps := none, pps := none, mux := none }

/-- An SPS packet (NAL type 7). -/
def spsPacket : RTPPacket :=
  { payloadType := 96, sequenceNumber := 0, timestamp := 0, marker := false,
    payload := [103, 1] }

/-- A PPS packet (NAL type 8). -/
def ppsPacket : RTPPacket :=
  { payloadType := 96, sequenceNumber := 1, timestamp := 0, marker := false,
    payload := [104, 2] }

/-- An IDR packet (NAL type 5) with RTP timestamp 9000: in a B-frame
stream the leading reference picture has a later presentation time than
the B picture that follows it in decode order. -/
def idrPacket : RTPPacket :=
  { payloadType := 96, sequenceNumber := 2, timestamp := 9000, marker := true,
    payload := [101, 3] }

/-- A non-IDR slice packet (NAL type 1) with RTP timestamp 3000, following
`idrPacket` in decode order. -/
def slicePacket : RTPPacket :=
  { payloadType := 96, sequenceNumber := 3, timestamp := 3000, marker := true,
    payload := [97, 4] }

/-- A sample sitting in a muxer track before the calls under study. -/
def sampleA : Sample :=
  { duration := 0, ptsOffset := 0, isNonSyncSample := true, payloadSize := 1,
    payload := [1] }

/-- A muxer track holding one buffered sample, last DTS 0. -/
def trackA : MuxerMP4Track :=
  { id := 1, timeScale := 90000, codec := Codec.mpeg1Video, timeOffset := 0,
    samples := [sampleA], lastDTS := 0 }

/-- A muxer track for payload type 96 holding one buffered sample. -/
def trackB : MuxerMP4Track :=
  { id := 96, timeScale := 90000, codec := Codec.h264Default, timeOffset := 0,
    samples := [sampleA], lastDTS := 7 }

/-- An `MP4Writer` whose current track is 96 and holds a buffered sample. -/
def mp4WriterStateB : MP4WriterState Nat :=
  { muxer := { tracks := [trackB], curTrack := some 96 }, h264Ext := none,
    h265Ext := none }

/-- An H.265 FU continuation packet (payload type 97): NAL header byte `98`
has type 49 (FU), the FU header byte `5` has start and end bits clear. -/
def h265ContPacket : RTPPacket :=
  { payloadType := 97, sequenceNumber := 5, timestamp := 0, marker := false,
    payload := [98, 1, 5, 9] }

/-- An RTP packet with an empty payload. -/
def emptyPayloadPacket : RTPPacket :=
  { payloadType := 96, sequenceNumber := 0, timestamp := 100, marker := false,
    payload := [] }

/-- The property "this DTS sequence is strictly increasing", as a
computable predicate on the list of dts arguments a run passed to the
muxer. -/
def strictIncreasing : List Int → Bool
  | [] => true
  | [_] => true
  | a :: b :: rest => if a < b then strictIncreasing (b :: rest) else false

/-- `setLastDuration` of a non-empty list is non-empty. -/
theorem setLastDuration_ne_nil (l : List Sample) (d : Nat) (h : l ≠ []) :
    setLastDuration l d ≠ [] := by
  match l with
  | [] => exact absurd rfl h
  | [s] => simp [setLastDuration]
  | s :: s2 :: rest => simp [setLastDuration]

/-- The duration written by `setLastDuration` is observable at the end of
the list. -/
theorem setLastDuration_getLast?_duration (l : List Sample) (d : Nat)
    (h : l ≠ []) :
    (setLastDuration l d).getLast?.map (fun s => s.duration) = some d := by
  induction l with
  | nil => exact absurd rfl h
  | cons s tail ih =>
    match tail with
    | [] => simp [setLastDuration]
    | s2 :: rest =>
      have htail : (s2 :: rest : List Sample) ≠ [] := by simp
      have hne := setLastDuration_ne_nil (s2 :: rest) d htail
      obtain ⟨x, xs, hx⟩ := List.exists_cons_of_ne_nil hne
      rw [show setLastDuration (s :: s2 :: rest) d =
            s :: setLastDuration (s2 :: rest) d from rfl]
      rw [hx, List.getLast?_cons_cons, ← hx]
      exact ih htail

/-- `setLastDuration` changes no payload. -/
theorem setLastDuration_map_payload (l : List Sample) (d : Nat) :
    (setLastDuration l d).map (fun s => s.payload) = l.map (fun s => s.payload) := by
  induction l with
  | nil => rfl
  | cons s tail ih =>
    match tail with
    | [] => simp [setLastDuration]
    | s2 :: rest =>
      rw [show setLastDuration (s :: s2 :: rest) d =
            s :: setLastDuration (s2 :: rest) d from rfl]
      simpa using ih

/-- The Go clamp equals `max 0`. -/
theorem clampNonNeg_eq_max (x : Int) : clampNonNeg x = max 0 x := by
  simp only [clampNonNeg]
  omega

/-- `uint32ofInt`, read back as an integer, is reduction modulo `2^32`. -/
theorem uint32ofInt_cast (x : Int) :
    ((uint32ofInt x : Nat) : Int) = x % 4294967296 := by
  have h : (0 : Int) ≤ x % 4294967296 := Int.emod_nonneg x (by norm_num)
  simp [uint32ofInt, Int.toNat_of_nonneg h]

/-- C10: `MuxerMP4.WriteSample` is total and never fails: for every
argument vector it returns `nil`, and afterwards the current track's
sample list is non-empty and its `LastDTS` equals the `dts` argument, so
a following `WriteFinalDTS` never indexes an empty sample list. -/
theorem claim_C10_writeSample_total (tr : MuxerMP4Track) (dts ptsOffset : Int)
    (isNonSyncSample : Bool) (payloadSize : Nat) (payload : List Nat) :
    writeSample tr dts ptsOffset isNonSyncSample payloadSize payload =
      Except.ok (writeSampleT tr dts ptsOffset isNonSyncSample payloadSize payload) ∧
    (writeSampleT tr dts ptsOffset isNonSyncSample payloadSize payload).samples ≠ [] ∧
    (writeSampleT tr dts ptsOffset isNonSyncSample payloadSize payload).lastDTS = dts := by
  refine ⟨rfl, ?_, rfl⟩
  simp [writeSampleT]

/-- C4: a sync sample with negative dts, or a sync sample with
non-negative dts while the track's last DTS is negative, discards all
previously buffered samples of the current track before the new sample is
appended; in every other case the buffered samples are kept (observed
through the stored payload sequence). -/
theorem claim_C4_pre_keyframe_discard (tr : MuxerMP4Track) (dts po : Int)
    (ins : Bool) (sz : Nat) (pl : List Nat) :
    (writeSampleT tr dts po ins sz pl).samples.map (fun s => s.payload) =
      (if (dts < 0 ∨ (0 ≤ dts ∧ tr.lastDTS < 0)) ∧ ins = false then []
       else tr.samples.map (fun s => s.payload)) ++ [pl] := by
  by_cases h : (dts < 0 ∨ (0 ≤ dts ∧ tr.lastDTS < 0)) ∧ ins = false
  · simp [writeSampleT, h]
  · by_cases h2 : tr.samples = []
    · simp [writeSampleT, h, h2]
    · simp [writeSampleT, h, h2, setLastDuration_map_payload]

/-- C5: a sync sample (`is_non_sync == false`) is stored with
`pts_offset` 0 regardless of the `pts_offset` argument; a non-sync sample
is stored with the argument unchanged. -/
theorem claim_C5_sync_pts_offset_clamp (tr : MuxerMP4Track) (dts po : Int)
    (ins : Bool) (sz : Nat) (pl : List Nat) :
    ((writeSampleT tr dts po ins sz pl).samples.getLast?).map
        (fun s => s.ptsOffset) =
      some (if ins = false then 0 else po) := by
  simp [writeSampleT]

/-- C9 counterexample: the constructor defaults are not the ones the claim
lists — `PartDuration` is 24 hours, not 1 second (durations in
nanoseconds). -/
theorem claim_C9_counterexample :
    ¬((NewWebRTCRecorder "out.mp4").format = RecordFormat.fmp4 ∧
      (NewWebRTCRecorder "out.mp4").partDuration = 1000000000 ∧
      (NewWebRTCRecorder "out.mp4").segmentDuration = 10000000000 ∧
      (NewWebRTCRecorder "out.mp4").restartPause = 2000000000) := by
  intro h
  have := h.2.1
  norm_num [NewWebRTCRecorder] at this

/-- C9 amended: `NewWebRTCRecorder` sets record format fmp4, part duration
24 h (86400 s), segment duration 10 s and restart pause 2 s. -/
theorem claim_C9_constructor_defaults (filePath : String) :
    (NewWebRTCRecorder filePath).format = RecordFormat.fmp4 ∧
    (NewWebRTCRecorder filePath).partDuration = 86400000000000 ∧
    (NewWebRTCRecorder filePath).segmentDuration = 10000000000 ∧
    (NewWebRTCRecorder filePath).restartPause = 2000000000 := by
  refine ⟨rfl, ?_, ?_, ?_⟩ <;> norm_num [NewWebRTCRecorder]

/-- C7 counterexample: for RTP timestamps straddling the `2^32` wrap
boundary (here `2^32 - 100` followed 150 ticks later by 50), the computed
PTS does not increase. -/
theorem claim_C7_counterexample :
    ¬(RTPToPTS ((4294967196 + 150) % 4294967296) 90000 >
        RTPToPTS 4294967196 90000) := by
  decide

/-- C7 amended: `RTPToPTS` returns the raw 32-bit timestamp, so across a
`2^32` wrap the PTS jumps DOWN by `2^32 - elapsed` instead of increasing
continuously; `MP4Writer.WriteRTPPacket` passes the same value onward as
its pts. -/
theorem claim_C7_wrap_discontinuity (ts1 delta cr : Nat)
    (h1 : ts1 < 4294967296) (h2 : delta < 4294967296)
    (h3 : 4294967296 ≤ ts1 + delta) :
    RTPToPTS ((ts1 + delta) % 4294967296) cr =
      RTPToPTS ts1 cr + delta - 4294967296 ∧
    RTPToPTS ((ts1 + delta) % 4294967296) cr < RTPToPTS ts1 cr ∧
    ∀ pkt : RTPPacket, mp4WriterPTS pkt = RTPToPTS pkt.timestamp cr := by
  have hm : (ts1 + delta) % 4294967296 = ts1 + delta - 4294967296 := by omega
  refine ⟨?_, ?_, fun pkt => rfl⟩
  · simp only [RTPToPTS, hm, Int.ofNat_eq_coe]
    omega
  · simp only [RTPToPTS, hm, Int.ofNat_eq_coe]
    omega

/-- Witness for the C7 amended theorem at the counterexample pair. -/
theorem claim_C7_wrap_discontinuity_witness :
    RTPToPTS ((4294967196 + 150) % 4294967296) 90000 =
      RTPToPTS 4294967196 90000 + 150 - 4294967296 ∧
    RTPToPTS ((4294967196 + 150) % 4294967296) 90000 <
      RTPToPTS 4294967196 90000 := by
  have h := claim_C7_wrap_discontinuity 4294967196 150 90000 (by norm_num)
    (by norm_num) (by norm_num)
  exact ⟨h.1, h.2.1⟩

/-- C8 counterexample: while no RTCP sender report is available
(`avail = false`), the WebRTC packet loop writes the incoming packet to
the stream without checking its payload, so an empty-payload packet is
written rather than dropped. -/
theorem claim_C8_counterexample :
    (webrtcLoopBody true false false 5 [] emptyPayloadPacket).2 =
      [emptyPayloadPacket] ∧
    emptyPayloadPacket.payload = [] := by
  decide

/-- C8 amended: only in the RTCP-synchronized branch (`avail = true`) does
the WebRTC packet loop skip empty-payload packets; every packet it writes
to the stream there has a non-empty payload. -/
theorem claim_C8_empty_payload_filter (f : Nat) (reordered : List RTPPacket)
    (pkt : RTPPacket) :
    ((webrtcLoopBody true false true f reordered pkt).2.all
        (fun p => !p.payload.isEmpty)) = true := by
  have hfil : ∀ l : List RTPPacket,
      (l.filter (fun p => !p.payload.isEmpty)).all
        (fun p => !p.payload.isEmpty) = true := by
    intro l
    rw [List.all_eq_true]
    intro x hx
    exact (List.mem_filter.mp hx).2
  simp [webrtcLoopBody, hfil reordered]

/-- C3 counterexample: with one buffered sample and last DTS 0, a call
with `dts = 2^32` must, by the claim, set the previous sample's duration
to `max(0, 2^32 - 0) = 2^32`; the code stores `uint32(diff)` and the
duration becomes 0. -/
theorem claim_C3_counterexample :
    ¬(((writeSampleT trackA 4294967296 0 true 1 [2]).samples.dropLast.getLast?).map
        (fun s => (s.duration : Int)) =
      some (max 0 (4294967296 - trackA.lastDTS))) := by
  decide

/-- C3 amended: when the track holds at least one sample and the
pre-keyframe discard does not clear it, the previous sample's duration is
set to `max(0, dts_current - dts_previous)` REDUCED MODULO `2^32`
(`uint32` truncation); the same truncated rule applies to the last sample
on `WriteFinalDTS(dts)`. -/
theorem claim_C3_previous_duration_rule :
    (∀ (tr : MuxerMP4Track) (dts po : Int) (ins : Bool) (sz : Nat)
        (pl : List Nat),
      tr.samples ≠ [] →
      ¬((dts < 0 ∨ (0 ≤ dts ∧ tr.lastDTS < 0)) ∧ ins = false) →
      ((writeSampleT tr dts po ins sz pl).samples.dropLast.getLast?).map
          (fun s => (s.duration : Int)) =
        some (max 0 (dts - tr.lastDTS) % 4294967296)) ∧
    (∀ (tr : MuxerMP4Track) (dts : Int),
      tr.samples ≠ [] →
      ((writeFinalDTS tr dts).samples.getLast?).map
          (fun s => (s.duration : Int)) =
        some (max 0 (dts - tr.lastDTS) % 4294967296)) := by
  constructor
  · intro tr dts po ins sz pl hne hnd
    simp only [writeSampleT, if_neg hnd, if_neg hne, List.dropLast_concat]
    have h1 := setLastDuration_getLast?_duration tr.samples
      (uint32ofInt (clampNonNeg (dts - tr.lastDTS))) hne
    obtain ⟨s, hs, hd⟩ := Option.map_eq_some'.mp h1
    rw [hs]
    simp only [Option.map_some']
    rw [hd, uint32ofInt_cast, clampNonNeg_eq_max]
  · intro tr dts hne
    simp only [writeFinalDTS]
    have h1 := setLastDuration_getLast?_duration tr.samples
      (uint32ofInt (clampNonNeg (dts - tr.lastDTS))) hne
    obtain ⟨s, hs, hd⟩ := Option.map_eq_some'.mp h1
    rw [hs]
    simp only [Option.map_some']
    rw [hd, uint32ofInt_cast, clampNonNeg_eq_max]

/-- Witness for the C3 amended theorem: both parts applied to `trackA`. -/
theorem claim_C3_previous_duration_rule_witness :
    ((writeSampleT trackA 100 0 true 1 [2]).samples.dropLast.getLast?).map
        (fun s => (s.duration : Int)) =
      some (max 0 (100 - trackA.lastDTS) % 4294967296) ∧
    ((writeFinalDTS trackA 50).samples.getLast?).map
        (fun s => (s.duration : Int)) =
      some (max 0 (50 - trackA.lastDTS) % 4294967296) :=
  ⟨claim_C3_previous_duration_rule.1 trackA 100 0 true 1 [2] (by decide)
      (by decide),
    claim_C3_previous_duration_rule.2 trackA 50 (by decide)⟩

/-- C6 counterexample: an H.265 FU continuation packet (payload type 97)
for which the depacketizer reports `NonStartingPacketAndNoPrevious` is
processed by an `MP4Writer` whose current track is 96 and holds a
buffered sample.  The call returns no error, but it does NOT leave the
muxer state unchanged: the payload-type mismatch re-initializes the
muxer before decoding, destroying the buffered sample. -/
theorem claim_C6_counterexample :
    decodeH265Fresh h265ContPacket.payload =
      DecodeResult.nonStartingPacketAndNoPrevious ∧
    (mp4WriterStep extractCounter 0 mp4WriterStateB h265ContPacket).2 =
      Except.ok () ∧
    (mp4WriterStep extractCounter 0 mp4WriterStateB h265ContPacket).1 ≠
      mp4WriterStateB ∧
    ((mp4WriterStep extractCounter 0 mp4WriterStateB h265ContPacket).1.muxer.tracks.map
        (fun t => t.samples)) = [[]] := by
  decide

/-- C6 amended: provided the packet's payload type equals the current
track's id (so no muxer re-initialization fires), a packet on which the
depacketizer reports `MorePacketsNeeded` or
`NonStartingPacketAndNoPrevious` makes `WriteRTPPacket` return no error
and leave the whole writer state — muxer tracks, last DTS and both
DTS-extractor states — unchanged. -/
theorem claim_C6_recoverable_decode_errors {E : Type}
    (extract : E → List (List Nat) → Int → Except Unit (Int × E)) (initE : E)
    (st : MP4WriterState E) (pkt : RTPPacket)
    (hcur : st.muxer.curTrack = some (Int.ofNat pkt.payloadType))
    (hdec : (pkt.payloadType = 96 ∧
        (decodeH264Fresh pkt.payload = DecodeResult.morePacketsNeeded ∨
         decodeH264Fresh pkt.payload = DecodeResult.nonStartingPacketAndNoPrevious)) ∨
      (pkt.payloadType = 97 ∧
        (decodeH265Fresh pkt.payload = DecodeResult.morePacketsNeeded ∨
         decodeH265Fresh pkt.payload = DecodeResult.nonStartingPacketAndNoPrevious))) :
    mp4WriterStep extract initE st pkt = (st, Except.ok ()) := by
  rcases hdec with ⟨hpt, hd | hd⟩ | ⟨hpt, hd | hd⟩ <;>
    simp [mp4WriterStep, hcur, hpt, hd]

/-- Witness for the C6 amended theorem: an H.264 FU-A continuation packet
on a writer whose current track is 96. -/
theorem claim_C6_recoverable_decode_errors_witness :
    mp4WriterStep extractCounter 0 mp4WriterStateB fuaContPacket =
      (mp4WriterStateB, Except.ok ()) :=
  claim_C6_recoverable_decode_errors extractCounter 0 mp4WriterStateB
    fuaContPacket (by decide) (Or.inl ⟨rfl, Or.inr (by decide)⟩)

/-- C1: evaluation at the failing input.  `RTPRecorder.WriteRTPPacket`
passes `int64(pkt.Timestamp)` — the presentation timestamp — as the `dts`
argument of `WriteSample` instead of the extracted DTS.  For a B-frame
ordered pair of packets (RTP timestamps 9000 then 3000) on which the
spec-conforming DTS extractor succeeds with strictly increasing DTS
values 0 then 1 (each at most its PTS), the dts arguments received by the
muxer are 9000 followed by 3000: not strictly increasing. -/
theorem claim_C1_muxer_dts_not_increasing :
    (rtpRecorderRun 0 extractCounter rtpRecorderInitialState
        [spsPacket, ppsPacket, idrPacket, slicePacket]).2 = [9000, 3000] ∧
    strictIncreasing
      ((rtpRecorderRun 0 extractCounter rtpRecorderInitialState
        [spsPacket, ppsPacket, idrPacket, slicePacket]).2) = false ∧
    extractCounter 0 [idrPacket.payload] 9000 = Except.ok (0, 1) ∧
    extractCounter 1 [slicePacket.payload] 3000 = Except.ok (1, 2) ∧
    (0 : Int) < 1 ∧ (0 : Int) ≤ 9000 ∧ (1 : Int) ≤ 3000 := by
  decide

/-- C2: evaluation at the failing input.  `MP4Writer.WriteRTPPacket`
constructs a FRESH `rtph264.Decoder` on every call, so the decoder state
of the FU-A fragment-start packet is gone when the continuation arrives:
feeding a fragment-start packet and then the matching fragment-end packet
returns `nil` twice, emits no sample (`tracks` sample lists all empty),
and never even initializes the DTS extractor — the fragmented NAL unit is
never reassembled. -/
theorem claim_C2_fua_state_not_kept :
    (mp4WriterRun extractCounter 0 mp4WriterInitialState
        [fuaStartPacket, fuaEndPacket]).2 = [Except.ok (), Except.ok ()] ∧
    ((mp4WriterRun extractCounter 0 mp4WriterInitialState
        [fuaStartPacket, fuaEndPacket]).1.muxer.tracks.map
      (fun t => t.samples)) = [[]] ∧
    (mp4WriterRun extractCounter 0 mp4WriterInitialState
        [fuaStartPacket, fuaEndPacket]).1.h264Ext = none ∧
    decodeH264Fresh fuaStartPacket.payload = DecodeResult.morePacketsNeeded ∧
    decodeH264Fresh fuaEndPacket.payload =
      DecodeResult.nonStartingPacketAndNoPrevious := by
  decide
